import Mathlib

/-!
Verification of the orchestration core of the ai-podcast-clipper-saas
repository against its natural-language specification.

The definitions below are shallow embeddings of the TypeScript source:
pure computations become Lean functions, database writes become explicit
values in returned records or action traces, and thrown exceptions become
explicit outcome constructors.  Machine numbers that can only be small
non-negative counts are modelled as Nat; scores are modelled as Int.
-/

/-! ## SQS region distribution (src/unnamed/part_000) -/

/-- The ten render regions, in source order (part_000 lines 5-16). -/
def REMOTION_REGIONS : List String :=
  [ "us-east-1", "us-west-2", "eu-west-1", "ap-southeast-1", "ap-southeast-2",
    "eu-central-1", "ca-central-1", "ap-northeast-1", "ap-northeast-2", "sa-east-1" ]

/-- A clip as seen by the distributor: only the identity and the optional
viral score are relevant; a missing score is coerced to 0 by the source
comparator. -/
structure SQSClip where
  id : String
  viral_score : Option Int
deriving DecidableEq, Repr

/-- The score the comparator uses: the viral score, with a missing score
treated as 0 (the JS expression viral_score or 0). -/
def clipScore (c : SQSClip) : Int :=
  c.viral_score.getD 0

/-- The comparator of part_000 line 153: descending by score.  A JS
Array.sort with this comparator is a stable descending sort, embedded here
as a stable insertion sort with the matching relation. -/
def clipGE (a b : SQSClip) : Prop :=
  clipScore b ≤ clipScore a

instance : DecidableRel clipGE :=
  fun a b => inferInstanceAs (Decidable (clipScore b ≤ clipScore a))

instance : IsTotal SQSClip clipGE :=
  ⟨fun a b => le_total (clipScore b) (clipScore a)⟩

instance : IsTrans SQSClip clipGE :=
  ⟨fun _ _ _ h h' => le_trans h' h⟩

/-- Default value used for total list indexing; the index is always in
range so this value is never produced. -/
def defaultRegion : String := ""

/-- part_000 lines 151-159: copy-sort the clips by viral score descending
and assign the clip at output position i the region at index
i mod REMOTION_REGIONS.length.  The input list is not mutated; in this
pure embedding the function only reads its argument. -/
def distributeClipsAcrossRegions (clips : List SQSClip) : List (SQSClip × String) :=
  (List.insertionSort clipGE clips).enum.map
    (fun p => (p.2, REMOTION_REGIONS.getD (p.1 % REMOTION_REGIONS.length) defaultRegion))

theorem distribute_map_fst (clips : List SQSClip) :
    (distributeClipsAcrossRegions clips).map Prod.fst = List.insertionSort clipGE clips := by
  simp [distributeClipsAcrossRegions, List.map_map, Function.comp]
  exact List.enum_map_snd _

/-- C10: distributeClipsAcrossRegions returns a list of the input length
whose clips are a permutation of the input sorted by viral score
descending (missing scores treated as 0), and the clip at output position
i is assigned region REMOTION_REGIONS[i mod 10]; the embedding is a pure
function of the input, which is therefore left unmodified. -/
theorem distributeClipsAcrossRegions_spec (clips : List SQSClip) :
    (distributeClipsAcrossRegions clips).length = clips.length
    ∧ ((distributeClipsAcrossRegions clips).map Prod.fst).Perm clips
    ∧ List.Pairwise (fun p q : SQSClip × String => clipScore q.1 ≤ clipScore p.1)
        (distributeClipsAcrossRegions clips)
    ∧ REMOTION_REGIONS.length = 10
    ∧ ∀ i, (h : i < (distributeClipsAcrossRegions clips).length) →
        ((distributeClipsAcrossRegions clips).get ⟨i, h⟩).2 =
          REMOTION_REGIONS.getD (i % 10) defaultRegion := by
  refine ⟨?_, ?_, ?_, rfl, ?_⟩
  · simp [distributeClipsAcrossRegions, List.length_insertionSort]
  · rw [distribute_map_fst]
    exact List.perm_insertionSort clipGE clips
  · have hs : List.Sorted clipGE (List.insertionSort clipGE clips) :=
      List.sorted_insertionSort clipGE clips
    rw [← distribute_map_fst clips] at hs
    exact List.pairwise_map.mp hs
  · intro i h
    simp only [distributeClipsAcrossRegions] at h ⊢
    rw [List.get_eq_getElem]
    rw [List.getElem_map]
    have hi : i < (List.insertionSort clipGE clips).enum.length := by
      simpa using h
    have he : i < (List.insertionSort clipGE clips).length := by
      simpa using hi
    rw [List.getElem_enum]
    rfl

/-- Concrete clip list used by the witnesses. -/
def witnessClips : List SQSClip :=
  [ { id := "a", viral_score := some 5 },
    { id := "b", viral_score := none },
    { id := "c", viral_score := some 9 } ]

theorem distributeClipsAcrossRegions_spec_witness :
    ((distributeClipsAcrossRegions witnessClips).get ⟨1, by decide⟩).2 =
      REMOTION_REGIONS.getD (1 % 10) defaultRegion :=
  (distributeClipsAcrossRegions_spec witnessClips).2.2.2.2 1 (by decide)

/-! ## Batch creation (src/unnamed/part_001 lines 501-519 and 1522-1549) -/

/-- BATCH_CONFIG.clipsPerBatch (part_001 line 89). -/
def clipsPerBatch : Nat := 4

/-- BATCH_CONFIG.maxConcurrentBatches (part_001 line 90). -/
def maxConcurrentBatches : Nat := 2

/-- A viral-moment candidate tagged with its position in the full input
list (the spread of the moment plus an original_index field). -/
structure IndexedMoment (α : Type) where
  moment : α
  original_index : Nat
deriving DecidableEq, Repr

/-- One batch group as pushed by the create-batches loop. -/
structure BatchGroup (α : Type) where
  batch_index : Nat
  viral_moments : List (IndexedMoment α)
  clip_count : Nat
deriving DecidableEq, Repr

/-- The original-index tagging map (part_001 lines 1527-1530). -/
def indexMoments {α : Type} (l : List α) : List (IndexedMoment α) :=
  l.enum.map (fun p => { moment := p.2, original_index := p.1 })

/-- Fuel-indexed form of the batching loop; the fuel only forces
structural termination and is always instantiated with the list length,
which bounds the number of loop iterations. -/
def chunkGroupsFuel {α : Type} (m : Nat) :
    Nat → List (IndexedMoment α) → Nat → List (BatchGroup α)
  | 0, _, _ => []
  | _ + 1, [], _ => []
  | fuel + 1, x :: xs, i =>
    { batch_index := i / (m + 1),
      viral_moments := (x :: xs).take (m + 1),
      clip_count := ((x :: xs).take (m + 1)).length }
      :: chunkGroupsFuel m fuel ((x :: xs).drop (m + 1)) (i + (m + 1))

/-- The batching loop (part_001 lines 1533-1540): starting at offset i and
stepping by the batch size, slice the next batch and record
batch_index = i / batchSize.  The batch size is m + 1, making the positive
size of the source constant (4) structural. -/
def chunkGroups {α : Type} (m : Nat) (l : List (IndexedMoment α)) (i : Nat) :
    List (BatchGroup α) :=
  chunkGroupsFuel m l.length l i

theorem chunkGroupsFuel_congr {α : Type} (m : Nat) :
    ∀ (f g : Nat) (l : List (IndexedMoment α)) (i : Nat),
      l.length ≤ f → l.length ≤ g → chunkGroupsFuel m f l i = chunkGroupsFuel m g l i := by
  intro f
  induction f with
  | zero =>
    intro g l i hf hg
    have : l = [] := List.eq_nil_of_length_eq_zero (Nat.le_zero.mp hf)
    subst this
    cases g <;> rfl
  | succ f ih =>
    intro g l i hf hg
    match l with
    | [] => cases g <;> rfl
    | x :: xs =>
      match g with
      | 0 => simp at hg
      | g + 1 =>
        simp only [chunkGroupsFuel]
        rw [ih g ((x :: xs).drop (m + 1)) (i + (m + 1))
          (by simp at hf ⊢; omega) (by simp at hg ⊢; omega)]

theorem chunkGroups_nil {α : Type} (m i : Nat) :
    chunkGroups m ([] : List (IndexedMoment α)) i = [] := rfl

theorem chunkGroups_cons {α : Type} (m : Nat) (x : IndexedMoment α)
    (xs : List (IndexedMoment α)) (i : Nat) :
    chunkGroups m (x :: xs) i =
      { batch_index := i / (m + 1),
        viral_moments := (x :: xs).take (m + 1),
        clip_count := ((x :: xs).take (m + 1)).length }
        :: chunkGroups m ((x :: xs).drop (m + 1)) (i + (m + 1)) := by
  show chunkGroupsFuel m (xs.length + 1) (x :: xs) i = _
  simp only [chunkGroupsFuel, chunkGroups]
  rw [chunkGroupsFuel_congr m xs.length ((x :: xs).drop (m + 1)).length
    ((x :: xs).drop (m + 1)) (i + (m + 1)) (by simp) le_rfl]

/-- The create-batches step: tag with original indices, then chunk from
offset 0.  The source batch size is clipsPerBatch = 4, i.e. m = 3. -/
def createBatches {α : Type} (moments : List α) (m : Nat) : List (BatchGroup α) :=
  chunkGroups m (indexMoments moments) 0

theorem indexMoments_length {α : Type} (l : List α) :
    (indexMoments l).length = l.length := by
  simp [indexMoments]

theorem chunkGroups_join {α : Type} (m : Nat) :
    ∀ (n : Nat) (l : List (IndexedMoment α)) (i : Nat), l.length ≤ n →
      ((chunkGroups m l i).map BatchGroup.viral_moments).flatten = l := by
  intro n
  induction n with
  | zero =>
    intro l i h
    have : l = [] := List.eq_nil_of_length_eq_zero (Nat.le_zero.mp h)
    subst this
    simp [chunkGroups_nil]
  | succ n ih =>
    intro l i h
    match l with
    | [] => simp [chunkGroups_nil]
    | x :: xs =>
      rw [chunkGroups_cons]
      simp only [List.map_cons, List.flatten_cons]
      rw [ih ((x :: xs).drop (m + 1)) (i + (m + 1)) (by simp at h ⊢; omega)]
      exact List.take_append_drop (m + 1) (x :: xs)

theorem chunkGroups_get {α : Type} (m : Nat) :
    ∀ (k : Nat) (l : List (IndexedMoment α)) (c : Nat)
      (h : k < (chunkGroups m l (c * (m + 1))).length),
      (chunkGroups m l (c * (m + 1))).get ⟨k, h⟩ =
        { batch_index := c + k,
          viral_moments := (l.drop (k * (m + 1))).take (m + 1),
          clip_count := ((l.drop (k * (m + 1))).take (m + 1)).length } := by
  intro k
  induction k with
  | zero =>
    intro l c h
    match l with
    | [] => simp [chunkGroups_nil] at h
    | x :: xs =>
      have hc : chunkGroups m (x :: xs) (c * (m + 1)) =
          { batch_index := c * (m + 1) / (m + 1),
            viral_moments := (x :: xs).take (m + 1),
            clip_count := ((x :: xs).take (m + 1)).length }
            :: chunkGroups m ((x :: xs).drop (m + 1)) (c * (m + 1) + (m + 1)) := by
        rw [chunkGroups_cons]
      simp only [List.get_eq_getElem]
      rw [List.getElem_of_eq hc]
      simp [Nat.mul_div_cancel c (Nat.succ_pos m)]
  | succ k ih =>
    intro l c h
    match l with
    | [] => simp [chunkGroups_nil] at h
    | x :: xs =>
      have harg : c * (m + 1) + (m + 1) = (c + 1) * (m + 1) := by ring
      have hlen : (chunkGroups m (x :: xs) (c * (m + 1))).length =
          (chunkGroups m ((x :: xs).drop (m + 1)) ((c + 1) * (m + 1))).length + 1 := by
        rw [chunkGroups_cons, harg]
        simp
      have h' : k < (chunkGroups m ((x :: xs).drop (m + 1)) ((c + 1) * (m + 1))).length := by
        omega
      have hget : (chunkGroups m (x :: xs) (c * (m + 1))).get ⟨k + 1, h⟩ =
          (chunkGroups m ((x :: xs).drop (m + 1)) ((c + 1) * (m + 1))).get ⟨k, h'⟩ := by
        have hc : chunkGroups m (x :: xs) (c * (m + 1)) =
            { batch_index := c * (m + 1) / (m + 1),
              viral_moments := (x :: xs).take (m + 1),
              clip_count := ((x :: xs).take (m + 1)).length }
              :: chunkGroups m ((x :: xs).drop (m + 1)) ((c + 1) * (m + 1)) := by
          rw [chunkGroups_cons, harg]
        simp only [List.get_eq_getElem]
        rw [List.getElem_of_eq hc]
        simp
      rw [hget, ih ((x :: xs).drop (m + 1)) (c + 1) h']
      have hd : (((x :: xs).drop (m + 1)).drop (k * (m + 1))) =
          (x :: xs).drop ((k + 1) * (m + 1)) := by
        rw [List.drop_drop]
        congr 1
        ring
      rw [hd]
      congr 1
      omega

theorem chunkGroups_take_join {α : Type} (m : Nat) :
    ∀ (k : Nat) (l : List (IndexedMoment α)) (c : Nat),
      (((chunkGroups m l (c * (m + 1))).take k).map BatchGroup.viral_moments).flatten =
        l.take (k * (m + 1)) := by
  intro k
  induction k with
  | zero => intro l c; simp
  | succ k ih =>
    intro l c
    match l with
    | [] => simp [chunkGroups_nil]
    | x :: xs =>
      have harg : c * (m + 1) + (m + 1) = (c + 1) * (m + 1) := by ring
      rw [chunkGroups_cons, harg]
      simp only [List.take_succ_cons, List.map_cons, List.flatten_cons]
      rw [ih ((x :: xs).drop (m + 1)) (c + 1)]
      rw [show (k + 1) * (m + 1) = (m + 1) + k * (m + 1) by ring]
      rw [List.take_add]
      rfl

theorem chunkGroups_lt_length {α : Type} (m : Nat) :
    ∀ (k : Nat) (l : List (IndexedMoment α)) (i : Nat),
      k < (chunkGroups m l i).length → k * (m + 1) < l.length := by
  intro k
  induction k with
  | zero =>
    intro l i h
    match l with
    | [] => simp [chunkGroups_nil] at h
    | x :: xs => simp
  | succ k ih =>
    intro l i h
    match l with
    | [] => simp [chunkGroups_nil] at h
    | x :: xs =>
      rw [chunkGroups_cons] at h
      simp only [List.length_cons, Nat.succ_lt_succ_iff] at h
      have := ih ((x :: xs).drop (m + 1)) (i + (m + 1)) h
      have he : (k + 1) * (m + 1) = k * (m + 1) + (m + 1) := by ring
      simp only [List.length_drop, List.length_cons] at this ⊢
      omega

/-- C4: createBatches tags each candidate with original_index equal to its
position in the full input list, partitions the tagged list into
contiguous batches of exactly N = m + 1 candidates (the last batch may be
smaller but is nonempty), assigns batch k the batch_index
k = floor(start-position / N) where the start position of batch k is k * N,
and the concatenation of the batches in order is the tagged input list.
The source instantiates N with clipsPerBatch = 4. -/
theorem createBatches_spec {α : Type} (moments : List α) (m : Nat) :
    (((createBatches moments m).map BatchGroup.viral_moments).flatten = indexMoments moments)
    ∧ (∀ j, j < moments.length →
        (indexMoments moments)[j]? =
          moments[j]?.map (fun a => { moment := a, original_index := j }))
    ∧ ∀ k, (h : k < (createBatches moments m).length) →
        ((createBatches moments m).get ⟨k, h⟩).batch_index = k
        ∧ ((createBatches moments m).get ⟨k, h⟩).batch_index = k * (m + 1) / (m + 1)
        ∧ ((createBatches moments m).get ⟨k, h⟩).viral_moments =
            ((indexMoments moments).drop (k * (m + 1))).take (m + 1)
        ∧ ((createBatches moments m).get ⟨k, h⟩).viral_moments.length =
            min (m + 1) (moments.length - k * (m + 1))
        ∧ 0 < ((createBatches moments m).get ⟨k, h⟩).viral_moments.length
        ∧ ((createBatches moments m).get ⟨k, h⟩).clip_count =
            ((createBatches moments m).get ⟨k, h⟩).viral_moments.length
        ∧ (((createBatches moments m).take k).map BatchGroup.viral_moments).flatten.length =
            k * (m + 1) := by
  have hidx : (indexMoments moments).length = moments.length := indexMoments_length moments
  have h0 : (0 : Nat) = 0 * (m + 1) := by ring
  refine ⟨?_, ?_, ?_⟩
  · exact chunkGroups_join m (indexMoments moments).length (indexMoments moments) 0 le_rfl
  · intro j hj
    have hj' : j < (indexMoments moments).length := by omega
    rw [List.getElem?_eq_getElem hj']
    simp only [indexMoments, List.getElem_map]
    have hje : j < moments.enum.length := by simpa using hj
    rw [List.getElem_enum]
    rw [List.getElem?_eq_getElem hj]
    rfl
  · intro k h
    have h' : k < (chunkGroups m (indexMoments moments) (0 * (m + 1))).length := by
      simpa [createBatches, ← h0] using h
    have hget :
        (createBatches moments m).get ⟨k, h⟩ =
          { batch_index := 0 + k,
            viral_moments := ((indexMoments moments).drop (k * (m + 1))).take (m + 1),
            clip_count :=
              (((indexMoments moments).drop (k * (m + 1))).take (m + 1)).length } := by
      have := chunkGroups_get m k (indexMoments moments) 0 h'
      simpa [createBatches, ← h0] using this
    have hlt : k * (m + 1) < (indexMoments moments).length :=
      chunkGroups_lt_length m k (indexMoments moments) 0
        (by simpa [createBatches] using h)
    refine ⟨?_, ?_, ?_, ?_, ?_, ?_, ?_⟩
    · rw [hget]; simp
    · rw [hget]
      simp [Nat.mul_div_cancel k (Nat.succ_pos m)]
    · rw [hget]
    · rw [hget]
      simp only [List.length_take, List.length_drop, hidx]
    · rw [hget]
      simp only [List.length_take, List.length_drop]
      omega
    · rw [hget]
    · have := chunkGroups_take_join m k (indexMoments moments) 0
      rw [← h0] at this
      show (((chunkGroups m (indexMoments moments) 0).take k).map
        BatchGroup.viral_moments).flatten.length = k * (m + 1)
      rw [this]
      simp only [List.length_take]
      omega

/-- Concrete moment list used by the witnesses. -/
def witnessMoments : List String := ["m0", "m1", "m2", "m3", "m4"]

theorem createBatches_spec_witness :
    ((indexMoments witnessMoments)[2]? =
      (witnessMoments[2]?).map (fun a => { moment := a, original_index := 2 }))
    ∧ (((createBatches witnessMoments 3).take 1).map BatchGroup.viral_moments).flatten.length
        = 1 * (3 + 1) :=
  ⟨(createBatches_spec witnessMoments 3).2.1 2 (by decide),
   ((createBatches_spec witnessMoments 3).2.2 1 (by decide)).2.2.2.2.2.2⟩

/-! ## Batch fan-out aggregation (src/unnamed/part_001 lines 1552-1628 and 528-595) -/

/-- The fields of a successful batch response relevant here (part_001
lines 183-201); clip descriptors are abstracted to identifiers. -/
structure BatchProcessingResult where
  batch_index : Nat
  processed_clips : List String
  failed_clips : List String
  clips_processed : Nat
  clips_failed : Nat
deriving DecidableEq, Repr

/-- The possible outcomes of one batch call against the batch backend. -/
inductive BatchCallOutcome
  | success (result : BatchProcessingResult)
  | httpError (status : Nat)
  | payloadError (message : String)
  | timeout
deriving DecidableEq, Repr

def batchHttpFailedMsg : String := "Batch failed: non-2xx response"

def batchTimeoutMsg : String := "Batch timed out after 20 minutes"

/-- One batch promise (part_001 lines 1554-1612): a non-2xx response, a
2xx payload with status error, and a timeout all throw; only a success
payload resolves with the batch result. -/
def batchAttempt : BatchCallOutcome → Except String BatchProcessingResult
  | .success r => .ok r
  | .httpError _ => .error batchHttpFailedMsg
  | .payloadError message => .error message
  | .timeout => .error batchTimeoutMsg

/-- The process-batches step (part_001 lines 1614-1628): the batch
promises are awaited through windows of maxConcurrentBatches joined with
Promise.all; a rejection in any window rejects that await and the whole
step throws, so the step resolves only when every batch resolved, with
all batch results in order.  The window structure does not change this
aggregate outcome, so the windows are folded into one pass here. -/
def collectBatchResults : List BatchCallOutcome → Except String (List BatchProcessingResult)
  | [] => .ok []
  | o :: os =>
    match batchAttempt o with
    | .error e => .error e
    | .ok r =>
      match collectBatchResults os with
      | .error e => .error e
      | .ok rs => .ok (r :: rs)

def witnessBatch1 : BatchProcessingResult :=
  { batch_index := 0, processed_clips := ["c0", "c1"], failed_clips := [],
    clips_processed := 2, clips_failed := 0 }

def witnessBatch3 : BatchProcessingResult :=
  { batch_index := 2, processed_clips := ["c8"], failed_clips := [],
    clips_processed := 1, clips_failed := 0 }

/-- C3 counterexample: with three batches of which only the middle one
fails upstream (HTTP 500), the sibling batches succeed individually, yet
the aggregate step returns an error and no processed-clips or
failed-clips output at all, so neither the succeeding siblings nor the
failing batch contribute their candidates to any output and no
total-preservation can hold. -/
theorem collectBatchResults_middle_failure_cx :
    (batchAttempt (BatchCallOutcome.success witnessBatch1)).isOk = true
    ∧ (batchAttempt (BatchCallOutcome.success witnessBatch3)).isOk = true
    ∧ (collectBatchResults
        [BatchCallOutcome.success witnessBatch1,
         BatchCallOutcome.httpError 500,
         BatchCallOutcome.success witnessBatch3]).isOk = false := by
  refine ⟨rfl, rfl, rfl⟩

/-- C3 amended: batch outcomes are not isolated.  If any batch fails
(non-2xx, error payload, or timeout) the whole process-batches step
throws and produces no output, discarding the sibling results; only when
every batch succeeds does the step return, and then it returns every
batch result in input order. -/
theorem collectBatchResults_spec (outcomes : List BatchCallOutcome) :
    ((∃ o ∈ outcomes, (batchAttempt o).isOk = false) →
      (collectBatchResults outcomes).isOk = false)
    ∧ ((∀ o ∈ outcomes, (batchAttempt o).isOk = true) →
      collectBatchResults outcomes =
        .ok (outcomes.filterMap (fun o => (batchAttempt o).toOption))) := by
  induction outcomes with
  | nil =>
    refine ⟨?_, ?_⟩
    · rintro ⟨o, ho, _⟩
      simp at ho
    · intro _
      rfl
  | cons o os ih =>
    refine ⟨?_, ?_⟩
    · rintro ⟨b, hb, hfail⟩
      rcases List.mem_cons.mp hb with hb | hb
      · subst hb
        match ho : batchAttempt b with
        | .error e => simp [collectBatchResults, ho, Except.isOk, Except.toBool]
        | .ok r => rw [ho] at hfail; simp [Except.isOk, Except.toBool] at hfail
      · have htail : (collectBatchResults os).isOk = false := ih.1 ⟨b, hb, hfail⟩
        match hoo : batchAttempt o with
        | .error e => simp [collectBatchResults, hoo, Except.isOk, Except.toBool]
        | .ok r =>
          simp only [collectBatchResults, hoo]
          match hcc : collectBatchResults os with
          | .error e => simp [Except.isOk, Except.toBool]
          | .ok rs => rw [hcc] at htail; simp [Except.isOk, Except.toBool] at htail
    · intro hall
      have ho : (batchAttempt o).isOk = true := hall o (List.mem_cons_self o os)
      match hoo : batchAttempt o with
      | .error e => rw [hoo] at ho; simp [Except.isOk, Except.toBool] at ho
      | .ok r =>
        have htail := ih.2 (fun b hb => hall b (List.mem_cons_of_mem o hb))
        simp only [collectBatchResults, hoo, htail, List.filterMap_cons]
        simp [Except.toOption]

theorem collectBatchResults_spec_witness :
    (collectBatchResults
        [BatchCallOutcome.success witnessBatch1, BatchCallOutcome.timeout]).isOk = false
    ∧ collectBatchResults [BatchCallOutcome.success witnessBatch1] =
        Except.ok [witnessBatch1] :=
  ⟨(collectBatchResults_spec
      [BatchCallOutcome.success witnessBatch1, BatchCallOutcome.timeout]).1
      ⟨BatchCallOutcome.timeout, by decide, by decide⟩,
   (collectBatchResults_spec [BatchCallOutcome.success witnessBatch1]).2 (by decide)⟩

/-! ## Analysis response handling (src/unnamed/part_001 lines 1336-1418, 354-456) -/

/-- The two kinds of error a phase step can throw: inngest distinguishes
NonRetriableError (imported at part_001 line 70) from an ordinary Error. -/
inductive ThrownError
  | nonRetriable (msg : String)
  | retriable (msg : String)
deriving DecidableEq, Repr

def authFailedMsg : String := "Authentication failed"

def clientErrorMsg : String := "Client error"

def analysisHttpFailedMsg : String := "Analysis phase failed"

def analysisStoppedMsg : String := "Analysis phase failed. Pipeline stopped."

def statusError : String := "error"

def statusFailed : String := "failed"

def phaseAnalysis : String := "analysis"

/-- fetch Response.ok: status in the inclusive range 200-299. -/
def responseOk (status : Nat) : Bool :=
  decide (200 ≤ status) && decide (status ≤ 299)

/-- The pipeline row fields written when the analysis payload reports an
error (part_001 lines 1385-1395). -/
structure FailurePersist where
  status : String
  error_message : Option String
  error_phase : String
deriving DecidableEq, Repr

/-- The analysis payload fields the step inspects (part_001 lines 156-181,
abstracted to the inspected fields). -/
structure AnalysisPayload where
  status : String
  error : Option String
  error_phase : Option String
  viral_moments_count : Nat
deriving DecidableEq, Repr

/-- Outcome of the modal-analysis step: either the payload is returned to
the next steps, or the step throws, optionally after persisting a
pipeline failure row. -/
inductive AnalysisStepOutcome
  | ok (payload : AnalysisPayload)
  | thrown (persisted : Option FailurePersist) (e : ThrownError)
deriving DecidableEq, Repr

/-- The modal-analysis step (part_001 lines 1349-1398): on a non-2xx
response, 401/403 throws NonRetriableError, any other 4xx throws
NonRetriableError, anything else throws an ordinary Error; on a 2xx
response whose payload has status error, the step persists the pipeline
as failed with the reported message and phase and throws an ordinary
Error; otherwise it returns the payload. -/
def modalAnalysisStep (httpStatus : Nat) (payload : AnalysisPayload) : AnalysisStepOutcome :=
  if responseOk httpStatus = false then
    if httpStatus = 401 ∨ httpStatus = 403 then
      .thrown none (.nonRetriable authFailedMsg)
    else if 400 ≤ httpStatus ∧ httpStatus < 500 then
      .thrown none (.nonRetriable clientErrorMsg)
    else
      .thrown none (.retriable analysisHttpFailedMsg)
  else if payload.status = statusError then
    .thrown
      (some { status := statusFailed, error_message := payload.error,
              error_phase := payload.error_phase.getD phaseAnalysis })
      (.retriable analysisStoppedMsg)
  else
    .ok payload

/-- The inngest retry rule for a failed step, from the documented contract
of the NonRetriableError class the source imports for this purpose: an
ordinary Error is retried up to the retries count configured on the
function, a NonRetriableError is never retried. -/
def retriesPerformed (configuredRetries : Nat) : ThrownError → Nat
  | .nonRetriable _ => 0
  | .retriable _ => configuredRetries

/-- retries: 1 configured on phase1AnalysisProcessor (part_001 line 1212)
and on unifiedPipelineProcessor (line 229). -/
def phase1AnalysisRetries : Nat := 1

def stepUpdateAfterAnalysis : String := "update-pipeline-after-analysis"

def stepTriggerPhase2 : String := "trigger-phase2"

/-- The steps of phase1AnalysisProcessor that follow the modal-analysis
step (part_001 lines 1420-1477) run only when the analysis step returned;
a thrown step rejects the whole function run. -/
def stepsAfterAnalysis : AnalysisStepOutcome → List String
  | .ok _ => [stepUpdateAfterAnalysis, stepTriggerPhase2]
  | .thrown _ _ => []

/-- C5: every non-2xx analysis response is classified: 401/403 throws the
distinct NonRetriableError kind, every other 4xx status also throws the
NonRetriableError kind, and the runtime performs zero retries on that
kind; a 5xx status throws an ordinary Error, retried like any transient
failure (the configured retry count). -/
theorem analysisClassification_spec (status : Nat) (payload : AnalysisPayload) :
    responseOk status = false →
      ((status = 401 ∨ status = 403) →
        modalAnalysisStep status payload = .thrown none (.nonRetriable authFailedMsg)
        ∧ retriesPerformed phase1AnalysisRetries (.nonRetriable authFailedMsg) = 0)
      ∧ (400 ≤ status ∧ status ≤ 499 ∧ status ≠ 401 ∧ status ≠ 403 →
        modalAnalysisStep status payload = .thrown none (.nonRetriable clientErrorMsg)
        ∧ retriesPerformed phase1AnalysisRetries (.nonRetriable clientErrorMsg) = 0)
      ∧ (500 ≤ status →
        modalAnalysisStep status payload = .thrown none (.retriable analysisHttpFailedMsg)
        ∧ retriesPerformed phase1AnalysisRetries (.retriable analysisHttpFailedMsg)
            = phase1AnalysisRetries) := by
  intro hok
  refine ⟨?_, ?_, ?_⟩
  · intro hauth
    refine ⟨?_, rfl⟩
    rw [modalAnalysisStep, if_pos hok, if_pos hauth]
  · rintro ⟨h400, h499, h401, h403⟩
    refine ⟨?_, rfl⟩
    rw [modalAnalysisStep, if_pos hok,
      if_neg (by rintro (h | h) <;> omega), if_pos ⟨h400, by omega⟩]
  · intro h500
    refine ⟨?_, rfl⟩
    rw [modalAnalysisStep, if_pos hok,
      if_neg (by rintro (h | h) <;> omega), if_neg (by rintro ⟨h1, h2⟩; omega)]

theorem analysisClassification_spec_witness :
    modalAnalysisStep 403
        { status := statusError, error := none, error_phase := none,
          viral_moments_count := 0 } =
      .thrown none (.nonRetriable authFailedMsg)
    ∧ modalAnalysisStep 503
        { status := statusError, error := none, error_phase := none,
          viral_moments_count := 0 } =
      .thrown none (.retriable analysisHttpFailedMsg) :=
  ⟨((analysisClassification_spec 403
      { status := statusError, error := none, error_phase := none,
        viral_moments_count := 0 } (by decide)).1 (by decide)).1,
   ((analysisClassification_spec 503
      { status := statusError, error := none, error_phase := none,
        viral_moments_count := 0 } (by decide)).2.2 (by decide)).1⟩

def gpuFailureMsg : String := "GPU worker crashed"

/-- The concrete 2xx payload reporting an analysis error, used for C6. -/
def errorPayload : AnalysisPayload :=
  { status := statusError, error := some gpuFailureMsg, error_phase := none,
    viral_moments_count := 0 }

/-- C6 counterexample: on a 2xx response whose payload carries status
error, the step does persist the pipeline as failed with the error
message and failing phase and does halt, but it throws an ordinary
retriable Error, so with the configured retries = 1 the orchestrator
retries the analysis step once, contradicting the claim that the
analysis phase is not retried. -/
theorem analysisPayloadError_retried_cx :
    modalAnalysisStep 200 errorPayload =
      .thrown
        (some { status := statusFailed, error_message := some gpuFailureMsg,
                error_phase := phaseAnalysis })
        (.retriable analysisStoppedMsg)
    ∧ retriesPerformed phase1AnalysisRetries (.retriable analysisStoppedMsg) = 1 := by
  exact ⟨rfl, rfl⟩

/-- C6 amended: on a 2xx analysis response whose payload carries status
error, the step persists the pipeline as failed (recording the reported
error message and the failing phase, defaulting to analysis) and throws,
so no subsequent phase step of the function runs; however the thrown
error is an ordinary retriable Error, so the step is subject to the
configured single automatic retry rather than never being retried. -/
theorem analysisPayloadError_spec (status : Nat) (payload : AnalysisPayload) :
    responseOk status = true → payload.status = statusError →
      modalAnalysisStep status payload =
        .thrown
          (some { status := statusFailed, error_message := payload.error,
                  error_phase := payload.error_phase.getD phaseAnalysis })
          (.retriable analysisStoppedMsg)
      ∧ stepsAfterAnalysis (modalAnalysisStep status payload) = []
      ∧ retriesPerformed phase1AnalysisRetries (.retriable analysisStoppedMsg)
          = phase1AnalysisRetries := by
  intro hok herr
  have hstep : modalAnalysisStep status payload =
      .thrown
        (some { status := statusFailed, error_message := payload.error,
                error_phase := payload.error_phase.getD phaseAnalysis })
        (.retriable analysisStoppedMsg) := by
    rw [modalAnalysisStep, if_neg (by simp [hok]), if_pos herr]
  exact ⟨hstep, by rw [hstep]; rfl, rfl⟩

theorem analysisPayloadError_spec_witness :
    stepsAfterAnalysis (modalAnalysisStep 200 errorPayload) = [] :=
  (analysisPayloadError_spec 200 errorPayload (by decide) (by decide)).2.1

/-! ## Download-resolution polling (src/unnamed/part_001 lines 1069-1159, 1925-1969) -/

/-- One poll of the progress URL, reduced to the behaviour the loop
branches on: a non-2xx response, a 2xx JSON body (with an optional
download_url field and a progress value), or a thrown fetch error. -/
inductive PollResponse
  | httpFail (status : Nat)
  | payload (download_url : Option String) (progress : Int)
  | netError
deriving DecidableEq, Repr

/-- maxPollAttempts (part_001 line 1076): 120 attempts. -/
def maxPollAttempts : Nat := 120

/-- pollInterval (part_001 line 1077): 5000 ms between attempts. -/
def pollIntervalMs : Nat := 5000

def pollTimeoutMsg : String := "Polling timed out after 120 attempts (10 minutes)"

/-- What one loop iteration extracts: the loop exits with the download
URL exactly when the poll response is a 2xx payload whose download_url
field is present; every other response (non-2xx, payload without the
field regardless of progress, fetch error) waits and continues
(part_001 lines 1085-1153). -/
def pollOnce : PollResponse → Option String
  | .payload (some u) _ => some u
  | .payload none _ => none
  | .httpFail _ => none
  | .netError => none

/-- The polling loop (part_001 lines 1079-1158): attempts are numbered
from 1; the loop runs at most the remaining count and raises the timeout
error after the last attempt. -/
def pollAttempts (responses : Nat → PollResponse) : Nat → Nat → Except String String
  | _, 0 => .error pollTimeoutMsg
  | attempt, remaining + 1 =>
    match pollOnce (responses attempt) with
    | some u => .ok u
    | none => pollAttempts responses (attempt + 1) remaining

/-- The whole 10-minute polling step, starting at attempt 1 with
maxPollAttempts attempts available. -/
def rapidApiPolling (responses : Nat → PollResponse) : Except String String :=
  pollAttempts responses 1 maxPollAttempts

theorem pollAttempts_spec (responses : Nat → PollResponse) :
    ∀ (remaining attempt : Nat),
      ((∀ t, attempt ≤ t → t < attempt + remaining → pollOnce (responses t) = none) →
        pollAttempts responses attempt remaining = .error pollTimeoutMsg)
      ∧ (∀ t u, attempt ≤ t → t < attempt + remaining →
          pollOnce (responses t) = some u →
          (∀ s, attempt ≤ s → s < t → pollOnce (responses s) = none) →
          pollAttempts responses attempt remaining = .ok u) := by
  intro remaining
  induction remaining with
  | zero =>
    intro attempt
    refine ⟨fun _ => rfl, ?_⟩
    intro t u h1 h2 _ _
    omega
  | succ remaining ih =>
    intro attempt
    refine ⟨?_, ?_⟩
    · intro hall
      have hnow : pollOnce (responses attempt) = none := hall attempt le_rfl (by omega)
      show pollAttempts responses attempt (remaining + 1) = .error pollTimeoutMsg
      rw [pollAttempts, hnow]
      exact (ih (attempt + 1)).1 (fun t ht1 ht2 => hall t (by omega) (by omega))
    · intro t u h1 h2 hsome hbefore
      show pollAttempts responses attempt (remaining + 1) = .ok u
      rcases Nat.eq_or_lt_of_le h1 with heq | hlt
      · subst heq
        rw [pollAttempts, hsome]
      · have hnow : pollOnce (responses attempt) = none := hbefore attempt le_rfl hlt
        rw [pollAttempts, hnow]
        exact (ih (attempt + 1)).2 t u (by omega) (by omega) hsome
          (fun s hs1 hs2 => hbefore s (by omega) hs2)

/-- C9: the polling step polls at a fixed 5000 ms interval for at most
120 attempts (10 minutes); it returns the download URL of the first poll
response in which a download_url field appears, and if none of the 120
attempts carries one it raises the timeout error, so the loop always
terminates within the bound; in particular the result depends only on the
first 120 responses. -/
theorem rapidApiPolling_spec (responses : Nat → PollResponse) :
    maxPollAttempts = 120
    ∧ pollIntervalMs = 5000
    ∧ ((∀ t, 1 ≤ t → t ≤ 120 → pollOnce (responses t) = none) →
        rapidApiPolling responses = .error pollTimeoutMsg)
    ∧ (∀ t u, 1 ≤ t → t ≤ 120 → pollOnce (responses t) = some u →
        (∀ s, 1 ≤ s → s < t → pollOnce (responses s) = none) →
        rapidApiPolling responses = .ok u)
    ∧ (∀ responses2 : Nat → PollResponse,
        (∀ t, 1 ≤ t → t ≤ 120 → responses t = responses2 t) →
        rapidApiPolling responses = rapidApiPolling responses2) := by
  refine ⟨rfl, rfl, ?_, ?_, ?_⟩
  · intro hall
    exact (pollAttempts_spec responses 120 1).1 (fun t ht1 ht2 => hall t ht1 (by omega))
  · intro t u h1 h2 hsome hbefore
    exact (pollAttempts_spec responses 120 1).2 t u h1 (by omega) hsome hbefore
  · intro responses2 hagree
    have key : ∀ (remaining attempt : Nat), attempt + remaining ≤ 121 → 1 ≤ attempt →
        pollAttempts responses attempt remaining = pollAttempts responses2 attempt remaining := by
      intro remaining
      induction remaining with
      | zero => intro attempt _ _; rfl
      | succ remaining ih =>
        intro attempt hle h1
        show pollAttempts responses attempt (remaining + 1)
            = pollAttempts responses2 attempt (remaining + 1)
        rw [pollAttempts, pollAttempts, hagree attempt h1 (by omega)]
        match pollOnce (responses2 attempt) with
        | some u => rfl
        | none => exact ih (attempt + 1) (by omega) (by omega)
    exact key 120 1 (by omega) le_rfl

def witnessUrl : String := "https://cdn.example/video.mp4"

/-- A response schedule whose third poll carries the download URL. -/
def witnessResponses : Nat → PollResponse := fun t =>
  if t = 3 then .payload (some witnessUrl) 1000 else .payload none 500

theorem rapidApiPolling_spec_witness :
    rapidApiPolling witnessResponses = Except.ok witnessUrl
    ∧ rapidApiPolling (fun _ => PollResponse.netError) = Except.error pollTimeoutMsg :=
  ⟨(rapidApiPolling_spec witnessResponses).2.2.2.1 3 witnessUrl (by omega) (by omega)
      (by decide) (by intro s h1 h2; interval_cases s <;> rfl),
   (rapidApiPolling_spec (fun _ => PollResponse.netError)).2.2.1 (fun t _ _ => rfl)⟩

/-! ## Completion aggregation (src/unnamed/part_004 lines 1063-1121 and
src/unnamed/part_003 lines 158-201) -/

def statusCOMPLETED : String := "COMPLETED"

def statusFAILED : String := "FAILED"

def statusQUEUED : String := "QUEUED"

/-- A generated_clips row as read by the completion checks. -/
structure ClipRow where
  id : String
  status : String
deriving DecidableEq, Repr

def countCompleted (clips : List ClipRow) : Nat :=
  (clips.filter (fun c => c.status == statusCOMPLETED)).length

def countFailed (clips : List ClipRow) : Nat :=
  (clips.filter (fun c => c.status == statusFAILED)).length

/-- The stats object returned by the check-pipeline-completion step of
handleClipCompletion (part_004 lines 1084-1100). -/
structure CompletionStats where
  complete : Bool
  totalClips : Nat
  completedClips : Nat
  failedClips : Nat
deriving DecidableEq, Repr

/-- check-pipeline-completion of handleClipCompletion (part_004 lines
1064-1101): re-read all clips of the pipeline (none models the
query-error early return, which yields the false result), count
completed and failed, and declare the pipeline complete exactly when
completed + failed equals the total and the total is positive. -/
def checkPipelineCompletion : Option (List ClipRow) → Option CompletionStats
  | none => none
  | some clips =>
    if countCompleted clips + countFailed clips = clips.length ∧ 0 < clips.length then
      some { complete := true, totalClips := clips.length,
             completedClips := countCompleted clips, failedClips := countFailed clips }
    else
      some { complete := false, totalClips := clips.length,
             completedClips := countCompleted clips, failedClips := countFailed clips }

/-- Step 4 of handleClipCompletion (part_004 lines 1104-1121): the
terminal pipeline-completion event is sent exactly when the step returned
an object whose complete field is true. -/
def triggersPipelineCompletion : Option CompletionStats → Bool
  | some s => s.complete
  | none => false

/-- The pipeline-completion event is sent iff completed + failed equals
the total and the total is positive (shared characterization of the
part_004 check). -/
theorem triggers_check_iff (clips : List ClipRow) :
    triggersPipelineCompletion (checkPipelineCompletion (some clips)) = true ↔
      countCompleted clips + countFailed clips = clips.length ∧ 0 < clips.length := by
  by_cases h : countCompleted clips + countFailed clips = clips.length ∧ 0 < clips.length
  · rw [checkPipelineCompletion, if_pos h]
    exact ⟨fun _ => h, fun _ => rfl⟩
  · rw [checkPipelineCompletion, if_neg h]
    exact ⟨fun hf => absurd (show (false : Bool) = true from hf) (by decide),
      fun hp => absurd hp h⟩

/-- The pipelines-table update written by handleRenderCompleted when it
declares the pipeline complete (part_003 lines 183-192). -/
structure PipelineCompletionUpdate where
  successful_clips : Nat
  failed_clips : Nat
deriving DecidableEq, Repr

/-- check-pipeline-completion of handleRenderCompleted (part_003 lines
159-201): re-read the clips and flip the pipeline to completed when
finished = total; there is no total > 0 guard in this handler. -/
def handleRenderCompletedCheck : Option (List ClipRow) → Option PipelineCompletionUpdate
  | none => none
  | some clips =>
    if countCompleted clips + countFailed clips = clips.length then
      some { successful_clips := countCompleted clips, failed_clips := countFailed clips }
    else none

/-- C7 counterexample: handleRenderCompleted declares the pipeline
complete for an empty clip set (finished = total = 0), so the claimed
only-if-total-positive condition does not hold for this handler, while
handleClipCompletion does require a positive total on the same input. -/
theorem handleRenderCompletedCheck_total_zero_cx :
    handleRenderCompletedCheck (some []) =
      some { successful_clips := 0, failed_clips := 0 }
    ∧ triggersPipelineCompletion (checkPipelineCompletion (some [])) = false := by
  exact ⟨rfl, rfl⟩

/-- C7 amended: on each notification both aggregators re-read all clips
of the pipeline and count completed and failed; handleClipCompletion
emits the pipeline-completion transition (recording the completed and
failed counts) iff completed + failed = total and total > 0, while
handleRenderCompleted emits (recording the same counts) iff
completed + failed = total, with no total > 0 guard. -/
theorem completionCheck_spec (clips : List ClipRow) :
    (checkPipelineCompletion (some clips) =
      some { complete :=
               decide (countCompleted clips + countFailed clips = clips.length
                 ∧ 0 < clips.length),
             totalClips := clips.length,
             completedClips := countCompleted clips,
             failedClips := countFailed clips })
    ∧ (triggersPipelineCompletion (checkPipelineCompletion (some clips)) = true ↔
        countCompleted clips + countFailed clips = clips.length ∧ 0 < clips.length)
    ∧ (countCompleted clips + countFailed clips = clips.length →
        handleRenderCompletedCheck (some clips) =
          some { successful_clips := countCompleted clips,
                 failed_clips := countFailed clips })
    ∧ (countCompleted clips + countFailed clips ≠ clips.length →
        handleRenderCompletedCheck (some clips) = none) := by
  by_cases h : countCompleted clips + countFailed clips = clips.length ∧ 0 < clips.length
  · refine ⟨?_, ?_, ?_, ?_⟩
    · rw [checkPipelineCompletion, if_pos h]
      simp [h]
    · exact triggers_check_iff clips
    · intro he
      rw [handleRenderCompletedCheck, if_pos he]
    · intro hne
      exact absurd h.1 hne
  · refine ⟨?_, ?_, ?_, ?_⟩
    · rw [checkPipelineCompletion, if_neg h]
      simp [h]
    · exact triggers_check_iff clips
    · intro he
      rw [handleRenderCompletedCheck, if_pos he]
    · intro hne
      rw [handleRenderCompletedCheck, if_neg hne]

def clipIdOne : String := "clip-1"

theorem completionCheck_spec_witness :
    handleRenderCompletedCheck (some [{ id := clipIdOne, status := statusCOMPLETED }]) =
      some { successful_clips := 1, failed_clips := 0 } :=
  (completionCheck_spec [{ id := clipIdOne, status := statusCOMPLETED }]).2.2.1 (by decide)

/-- A clip-render completion notification (webhook event data): the clip
id and whether the render succeeded. -/
structure Notif where
  clipId : String
  success : Bool
deriving DecidableEq, Repr

/-- Steps 1-2 of handleClipCompletion (part_004 lines 1011-1061): set the
status of the named clip row to COMPLETED on success or FAILED on error,
keyed by clip id; other rows are untouched. -/
def applyClipUpdate (clips : List ClipRow) (n : Notif) : List ClipRow :=
  clips.map (fun c =>
    if c.id == n.clipId then
      { c with status := if n.success then statusCOMPLETED else statusFAILED }
    else c)

/-- Whether a clip row state makes handleClipCompletion emit the terminal
pipeline-completion event. -/
def emitsOn (clips : List ClipRow) : Bool :=
  triggersPipelineCompletion (checkPipelineCompletion (some clips))

/-- Sequential processing of a notification list by handleClipCompletion
(the function is configured with concurrency limit 1, part_004 line 990,
so deliveries serialize): each notification updates its clip row, then
re-checks completion and emits the terminal event when the check
declares the pipeline complete.  Returns the final clip table and how
many times the terminal event was emitted. -/
def processNotifications (clips : List ClipRow) : List Notif → List ClipRow × Nat
  | [] => (clips, 0)
  | n :: ns =>
    let updated := applyClipUpdate clips n
    let rest := processNotifications updated ns
    (rest.1, (if emitsOn updated then 1 else 0) + rest.2)

/-- The clip-table states observed by the completion check after each
notification. -/
def notifStates (clips : List ClipRow) : List Notif → List (List ClipRow)
  | [] => []
  | n :: ns => applyClipUpdate clips n :: notifStates (applyClipUpdate clips n) ns

/-- A clip row is terminal when its status is COMPLETED or FAILED. -/
def isTerminal (c : ClipRow) : Bool :=
  c.status == statusCOMPLETED || c.status == statusFAILED

theorem count_terminal (l : List ClipRow) :
    countCompleted l + countFailed l = (l.filter isTerminal).length := by
  induction l with
  | nil => rfl
  | cons c l ih =>
    have hne : ¬ statusCOMPLETED = statusFAILED := by decide
    have hne2 : ¬ statusFAILED = statusCOMPLETED := by decide
    by_cases hc : c.status = statusCOMPLETED
    · have hf : ¬ c.status = statusFAILED := by rw [hc]; exact hne
      simp [countCompleted, countFailed, isTerminal, List.filter_cons, hc, hf,
        hne, hne2] at ih ⊢
      omega
    · by_cases hf : c.status = statusFAILED
      · simp [countCompleted, countFailed, isTerminal, List.filter_cons, hc, hf,
          hne, hne2] at ih ⊢
        omega
      · simp [countCompleted, countFailed, isTerminal, List.filter_cons, hc, hf,
          hne, hne2] at ih ⊢
        omega

theorem terminal_count_iff (l : List ClipRow) :
    countCompleted l + countFailed l = l.length ↔ ∀ c ∈ l, isTerminal c = true := by
  rw [count_terminal]
  constructor
  · intro h
    rw [← List.filter_eq_self]
    exact (List.filter_sublist l).eq_of_length h
  · intro h
    rw [List.filter_eq_self.mpr h]

theorem emitsOn_applyClipUpdate (clips : List ClipRow) (n : Notif) :
    emitsOn clips = true → emitsOn (applyClipUpdate clips n) = true := by
  intro h
  have hc := (triggers_check_iff clips).mp h
  apply (triggers_check_iff (applyClipUpdate clips n)).mpr
  have hlen : (applyClipUpdate clips n).length = clips.length := by
    simp [applyClipUpdate]
  constructor
  · rw [terminal_count_iff]
    intro c hcmem
    rw [applyClipUpdate] at hcmem
    rcases List.mem_map.mp hcmem with ⟨d, hd, hde⟩
    subst hde
    by_cases hid : (d.id == n.clipId) = true
    · simp only [hid, if_true]
      cases n.success <;> simp [isTerminal, statusCOMPLETED, statusFAILED]
    · have hfa : (d.id == n.clipId) = false := by
        cases hx : d.id == n.clipId
        · rfl
        · exact absurd hx hid
      simp only [hfa, Bool.false_eq_true, if_false]
      exact (terminal_count_iff clips).mp hc.1 d hd
  · rw [hlen]
    exact hc.2

def witnessQueuedClip : ClipRow := { id := clipIdOne, status := statusQUEUED }

/-- C1 counterexample: a pipeline with a single queued clip receives the
same success notification twice (at-least-once delivery); the terminal
pipeline-completion action is emitted by both deliveries, i.e. twice
rather than exactly once, because handleClipCompletion has no
already-terminal guard. -/
theorem completionAction_duplicate_cx :
    (processNotifications [witnessQueuedClip]
      [{ clipId := clipIdOne, success := true },
       { clipId := clipIdOne, success := true }]).2 = 2 := by
  rfl

/-- C1 amended: the terminal pipeline-completion action executes once per
delivered notification whose post-update clip table has every clip
terminal (and at least one clip) - not exactly once per pipeline.  In
particular, once the pipeline is complete, every further (duplicate)
notification re-executes the action. -/
theorem processNotifications_spec (clips : List ClipRow) (ns : List Notif) :
    (processNotifications clips ns).2 = ((notifStates clips ns).filter emitsOn).length
    ∧ (emitsOn clips = true → (processNotifications clips ns).2 = ns.length) := by
  induction ns generalizing clips with
  | nil => exact ⟨rfl, fun _ => rfl⟩
  | cons n ns ih =>
    refine ⟨?_, ?_⟩
    · show (if emitsOn (applyClipUpdate clips n) then 1 else 0)
          + (processNotifications (applyClipUpdate clips n) ns).2 = _
      rw [(ih (applyClipUpdate clips n)).1]
      simp only [notifStates, List.filter_cons]
      by_cases he : emitsOn (applyClipUpdate clips n) = true
      · simp [he, Nat.add_comm]
      · have he' : emitsOn (applyClipUpdate clips n) = false := by
          cases hx : emitsOn (applyClipUpdate clips n)
          · rfl
          · exact absurd hx he
        simp [he']
    · intro hstart
      have hupd : emitsOn (applyClipUpdate clips n) = true :=
        emitsOn_applyClipUpdate clips n hstart
      show (if emitsOn (applyClipUpdate clips n) then 1 else 0)
          + (processNotifications (applyClipUpdate clips n) ns).2 = ns.length + 1
      rw [hupd, (ih (applyClipUpdate clips n)).2 hupd]
      simp [Nat.add_comm]

theorem processNotifications_spec_witness :
    (processNotifications [{ id := clipIdOne, status := statusCOMPLETED }]
      [{ clipId := clipIdOne, success := true }]).2 = 1 :=
  (processNotifications_spec [{ id := clipIdOne, status := statusCOMPLETED }]
    [{ clipId := clipIdOne, success := true }]).2 (by decide)

/-! ## Phase 3 dispatch and credit settlement (src/unnamed/part_001 lines
1696-1877, and 627-898 for the unified variant) -/

/-- reduce of clips_processed over the phase-2 batch results (part_001
line 1799). -/
def totalClipsProcessed (brs : List BatchProcessingResult) : Nat :=
  (brs.map (fun r => r.clips_processed)).sum

/-- reduce of clips_failed over the phase-2 batch results (part_001 line
1854). -/
def totalClipsFailed (brs : List BatchProcessingResult) : Nat :=
  (brs.map (fun r => r.clips_failed)).sum

/-- flatMap of processed_clips over the batch results (part_001 line
1716). -/
def allProcessedClips (brs : List BatchProcessingResult) : List String :=
  (brs.map (fun r => r.processed_clips)).flatten

/-- The externally observable actions of phase 3.  aggregatorDeclaredDone
is the event the claim requires before settlement (the Completion
Aggregator declaring the pipeline done); it is part of the alphabet so
its absence from the trace is expressible. -/
inductive Phase3Action
  | sqsDispatch (clips : List String)
  | deductCredits (amount : Nat)
  | aggregatorDeclaredDone
  | markPipelineCompleted (successful failed : Nat)
deriving DecidableEq, Repr

/-- The action trace of phase3RemotionProcessor (part_001 lines
1704-1875): step 1 sends every processed clip to the render queue
(skipped when there are none), step 2 deducts one credit per
clips_processed of the phase-2 batch results (skipped when zero), step 3
marks the pipeline completed with the phase-2 counters.  No step waits
for render completions, and no aggregator event occurs in this
function. -/
def phase3Trace (brs : List BatchProcessingResult) : List Phase3Action :=
  (if (allProcessedClips brs).length = 0 then []
   else [.sqsDispatch (allProcessedClips brs)])
  ++ (if totalClipsProcessed brs = 0 then []
      else [.deductCredits (totalClipsProcessed brs)])
  ++ [.markPipelineCompleted (totalClipsProcessed brs) (totalClipsFailed brs)]

/-- The concrete phase-2 result used for the C2 counterexample: two clips
produced by batch processing, one failed. -/
def witnessPhase3Batch : BatchProcessingResult :=
  { batch_index := 0, processed_clips := ["c0", "c1"], failed_clips := ["c2"],
    clips_processed := 2, clips_failed := 1 }

/-- C2 counterexample: for a pipeline whose phase 2 produced two clips,
phase 3 deducts the two credits immediately after the render dispatch and
then itself marks the pipeline completed; no aggregator-done event
precedes the deduction (none occurs at all), and the amount charged is
the phase-2 clips_processed count, before any render has finished. -/
theorem settlement_before_completion_cx :
    phase3Trace [witnessPhase3Batch] =
      [Phase3Action.sqsDispatch ["c0", "c1"],
       Phase3Action.deductCredits 2,
       Phase3Action.markPipelineCompleted 2 1]
    ∧ Phase3Action.aggregatorDeclaredDone ∉ phase3Trace [witnessPhase3Batch] := by
  refine ⟨rfl, ?_⟩
  intro hmem
  simp [phase3Trace, witnessPhase3Batch, allProcessedClips, totalClipsProcessed,
    totalClipsFailed] at hmem

/-- C2 amended: settlement is early, not completion-gated.  Whenever
phase 2 produced at least one clip, the phase-3 trace contains a
deduction of exactly totalClipsProcessed credits (one per clip produced
by batch processing, regardless of later render outcomes) at a position
strictly before the pipeline-completed mark; when phase 2 produced
nothing, no deduction occurs; and no aggregator-done event ever appears
in the trace, so the deduction is never preceded by one. -/
theorem phase3Trace_spec (brs : List BatchProcessingResult) :
    (0 < totalClipsProcessed brs →
      ∃ i j : Nat, i < j ∧
        (phase3Trace brs)[i]? =
          some (Phase3Action.deductCredits (totalClipsProcessed brs)) ∧
        (phase3Trace brs)[j]? =
          some (Phase3Action.markPipelineCompleted (totalClipsProcessed brs)
            (totalClipsFailed brs)))
    ∧ (totalClipsProcessed brs = 0 →
        ∀ a, Phase3Action.deductCredits a ∉ phase3Trace brs)
    ∧ Phase3Action.aggregatorDeclaredDone ∉ phase3Trace brs := by
  refine ⟨?_, ?_, ?_⟩
  · intro hpos
    have hz : ¬ totalClipsProcessed brs = 0 := by omega
    by_cases hd : (allProcessedClips brs).length = 0
    · refine ⟨0, 1, by omega, ?_, ?_⟩
      · simp [phase3Trace, hd, hz]
      · simp [phase3Trace, hd, hz]
    · refine ⟨1, 2, by omega, ?_, ?_⟩
      · simp [phase3Trace, hd, hz]
      · simp [phase3Trace, hd, hz]
  · intro hzero a hmem
    by_cases hd : (allProcessedClips brs).length = 0
    · simp [phase3Trace, hd, hzero] at hmem
    · simp [phase3Trace, hd, hzero] at hmem
  · intro hmem
    by_cases hd : (allProcessedClips brs).length = 0
    · by_cases hz : totalClipsProcessed brs = 0
      · simp [phase3Trace, hd, hz] at hmem
      · simp [phase3Trace, hd, hz] at hmem
    · by_cases hz : totalClipsProcessed brs = 0
      · simp [phase3Trace, hd, hz] at hmem
      · simp [phase3Trace, hd, hz] at hmem

theorem phase3Trace_spec_witness :
    ∃ i j : Nat, i < j ∧
      (phase3Trace [witnessPhase3Batch])[i]? =
        some (Phase3Action.deductCredits (totalClipsProcessed [witnessPhase3Batch])) ∧
      (phase3Trace [witnessPhase3Batch])[j]? =
        some (Phase3Action.markPipelineCompleted
          (totalClipsProcessed [witnessPhase3Batch])
          (totalClipsFailed [witnessPhase3Batch])) :=
  (phase3Trace_spec [witnessPhase3Batch]).1 (by decide)

/-! ## Quota admission (src/ai-podcast-clipper-frontend/src/inngest/
production-functions.ts lines 289-308, src/unnamed/part_001 lines
1228-1279) -/

/-- The user quota fields read by checkUserQuota. -/
structure UserQuota where
  daily_requests : Nat
  concurrent_jobs : Nat
deriving DecidableEq, Repr

/-- The system load read by checkUserQuota. -/
structure SystemLoad where
  concurrent_pipelines : Nat
deriving DecidableEq, Repr

/-- The decision record returned by checkUserQuota. -/
structure QuotaDecision where
  allowed : Bool
  reason : Option String
deriving DecidableEq, Repr

def dailyQuotaMsg : String := "Daily quota exceeded (20 requests/day)"

def concurrentJobsMsg : String := "Too many concurrent jobs (max 3)"

def systemCapacityMsg : String := "System at capacity, please try again in a few minutes"

/-- checkUserQuota (production-functions.ts lines 289-308): in order,
daily requests below 20, concurrent jobs below 3, system active
pipelines below 8; the first failing check returns with its reason.  The
function reads and never writes; it contains no blocked-flag and no
credit-balance check. -/
def checkUserQuota (q : UserQuota) (load : SystemLoad) : QuotaDecision :=
  if 20 ≤ q.daily_requests then { allowed := false, reason := some dailyQuotaMsg }
  else if 3 ≤ q.concurrent_jobs then { allowed := false, reason := some concurrentJobsMsg }
  else if 8 ≤ load.concurrent_pipelines then
    { allowed := false, reason := some systemCapacityMsg }
  else { allowed := true, reason := none }

/-- The user profile fields read by the phase-1 user-validation step. -/
structure UserProfile where
  credits : Int
  is_blocked : Bool
deriving DecidableEq, Repr

/-- A pipelines-table status write. -/
structure PipelineStatusWrite where
  status : String
deriving DecidableEq, Repr

/-- Outcome of the user-validation step: proceed with the credit balance,
or reject by throwing, possibly after persisting a status write. -/
inductive ValidationOutcome
  | ok (credits : Int)
  | rejected (persisted : Option PipelineStatusWrite) (message : String)
deriving DecidableEq, Repr

def blockedMsg : String := "Account is blocked"

def noCreditsMsg : String := "User has no credits remaining"

def statusNoCredits : String := "no credits"

/-- The user-validation step of phase1AnalysisProcessor (part_001 lines
1241-1278): the blocked flag is checked first (throws, persisting
nothing), then a non-positive credit balance (which first writes the
pipeline status to no credits, mutating state, then throws); otherwise
the step proceeds. -/
def userValidation (p : UserProfile) : ValidationOutcome :=
  if p.is_blocked then .rejected none blockedMsg
  else if p.credits ≤ 0 then
    .rejected (some { status := statusNoCredits }) noCreditsMsg
  else .ok p.credits

/-- Definition following the claim C8 words, for comparison with the
source: a single admission check evaluating, in order, the blocked flag,
a positive credit balance, the daily limit, the concurrent limit and the
global ceiling, short-circuiting on the first failure and mutating
nothing. -/
def specQuotaAdmit (blocked : Bool) (credits : Int) (q : UserQuota)
    (load : SystemLoad) : QuotaDecision :=
  if blocked then { allowed := false, reason := some blockedMsg }
  else if credits ≤ 0 then { allowed := false, reason := some noCreditsMsg }
  else if 20 ≤ q.daily_requests then { allowed := false, reason := some dailyQuotaMsg }
  else if 3 ≤ q.concurrent_jobs then { allowed := false, reason := some concurrentJobsMsg }
  else if 8 ≤ load.concurrent_pipelines then
    { allowed := false, reason := some systemCapacityMsg }
  else { allowed := true, reason := none }

/-- C8 counterexample: for a blocked user with zero credits and all
counters at zero, the admission check the claim describes rejects, but
the quota check in the source allows (it evaluates neither the blocked
flag nor the balance); and the code path that does check the balance (the
phase-1 user-validation step) mutates state on failure, writing the
pipeline status no credits before throwing. -/
theorem checkUserQuota_missing_checks_cx :
    (checkUserQuota { daily_requests := 0, concurrent_jobs := 0 }
      { concurrent_pipelines := 0 }).allowed = true
    ∧ (specQuotaAdmit true 0 { daily_requests := 0, concurrent_jobs := 0 }
      { concurrent_pipelines := 0 }).allowed = false
    ∧ userValidation { credits := 0, is_blocked := false } =
        .rejected (some { status := statusNoCredits }) noCreditsMsg := by
  exact ⟨rfl, rfl, rfl⟩

/-- C8 amended: checkUserQuota evaluates, in order, only the daily limit
(20), the per-user concurrent limit (3) and the global ceiling (8),
short-circuiting with a human-readable reason and mutating nothing; the
blocked-flag and positive-balance checks are performed separately by the
phase-1 user-validation step (blocked first, then balance), which on a
non-positive balance mutates the pipeline status to no credits before
rejecting. -/
theorem quotaAdmission_spec (q : UserQuota) (load : SystemLoad) (p : UserProfile) :
    (20 ≤ q.daily_requests →
      checkUserQuota q load = { allowed := false, reason := some dailyQuotaMsg })
    ∧ (q.daily_requests < 20 → 3 ≤ q.concurrent_jobs →
      checkUserQuota q load = { allowed := false, reason := some concurrentJobsMsg })
    ∧ (q.daily_requests < 20 → q.concurrent_jobs < 3 → 8 ≤ load.concurrent_pipelines →
      checkUserQuota q load = { allowed := false, reason := some systemCapacityMsg })
    ∧ (q.daily_requests < 20 → q.concurrent_jobs < 3 → load.concurrent_pipelines < 8 →
      checkUserQuota q load = { allowed := true, reason := none })
    ∧ (p.is_blocked = true → userValidation p = .rejected none blockedMsg)
    ∧ (p.is_blocked = false → p.credits ≤ 0 →
      userValidation p = .rejected (some { status := statusNoCredits }) noCreditsMsg)
    ∧ (p.is_blocked = false → 0 < p.credits → userValidation p = .ok p.credits) := by
  refine ⟨?_, ?_, ?_, ?_, ?_, ?_, ?_⟩
  · intro h1
    rw [checkUserQuota, if_pos h1]
  · intro h1 h2
    rw [checkUserQuota, if_neg (by omega), if_pos h2]
  · intro h1 h2 h3
    rw [checkUserQuota, if_neg (by omega), if_neg (by omega), if_pos h3]
  · intro h1 h2 h3
    rw [checkUserQuota, if_neg (by omega), if_neg (by omega), if_neg (by omega)]
  · intro hb
    rw [userValidation, if_pos hb]
  · intro hb hc
    rw [userValidation, if_neg (by simp [hb]), if_pos hc]
  · intro hb hc
    rw [userValidation, if_neg (by simp [hb]), if_neg (by omega)]

theorem quotaAdmission_spec_witness :
    checkUserQuota { daily_requests := 20, concurrent_jobs := 0 }
        { concurrent_pipelines := 0 } =
      { allowed := false, reason := some dailyQuotaMsg }
    ∧ userValidation { credits := 5, is_blocked := false } = .ok 5 :=
  ⟨(quotaAdmission_spec { daily_requests := 20, concurrent_jobs := 0 }
      { concurrent_pipelines := 0 } { credits := 5, is_blocked := false }).1 (by decide),
   (quotaAdmission_spec { daily_requests := 20, concurrent_jobs := 0 }
      { concurrent_pipelines := 0 } { credits := 5, is_blocked := false }).2.2.2.2.2.2
      rfl (by decide)⟩
